import Mathlib

/-!
Shallow embedding of the node scoring / filtering / ranking pipeline and the
resource-lifecycle control flow of this repository, covering
`src/network_metrics.py`, `src/filter.py`, `src/utils.py`, `src/models.py`,
`src/history.py`, `src/xray_tester.py` and `src/hiddify_tester.py`.

Modelling conventions:
* Python `float` values are modelled as exact rationals (`ℚ`); the properties
  under study concern orderings, zeros and control flow, which the exact
  rational model preserves.
* `Optional[float]` fields become `Option ℚ`; `None` is `none`.
* Python code that can raise is modelled with `Option` / `Except` or an
  explicit exception value threaded through the control flow.
* Character classes (`\w`, `str.lower`, `str.strip`, `str.isdigit`) are
  modelled on their ASCII subset, which covers every input appearing in the
  theorems below.
-/

/-- Dataclass `Metrics` from `src/network_metrics.py`: the per-test
measurement record consumed by the scorer and the filter. -/
structure Metrics where
  success : Bool
  latency_ms : Option ℚ := none
  jitter_ms : Option ℚ := none
  packet_loss : Option ℚ := none
  throughput_kbps : Option ℚ := none
  reliability : Option ℚ := some 1
deriving Repr, DecidableEq

/-- Modelled from the spec: the `Config` attributes consulted by
`src/filter.py` and `src/network_metrics.py`.  `MAX_LATENCY_MS`,
`MIN_THROUGHPUT_KBPS` and `MIN_RELIABILITY` are declared in `src/config.py`;
the remaining attributes (`SUPPORTED_PROTOCOLS`, the `IDEAL_*` / `MAX_*`
normalization bounds and the five `*_WEIGHT` factors) are referenced by the
source but defined nowhere in the repository, so they are carried here as
parameters whose defaults (see `defaultCfg`) follow the spec's description
of the default weighting and normalization curves. -/
structure Cfg where
  SUPPORTED_PROTOCOLS : List String
  MAX_LATENCY_MS : ℚ
  MIN_THROUGHPUT_KBPS : ℚ
  MIN_RELIABILITY : ℚ
  IDEAL_LATENCY_MS : ℚ
  IDEAL_JITTER_MS : ℚ
  MAX_JITTER_MS : ℚ
  IDEAL_THROUGHPUT_KBPS : ℚ
  IDEAL_PACKET_LOSS : ℚ
  MAX_PACKET_LOSS : ℚ
  LATENCY_WEIGHT : ℚ
  JITTER_WEIGHT : ℚ
  THROUGHPUT_WEIGHT : ℚ
  PACKET_LOSS_WEIGHT : ℚ
  RELIABILITY_WEIGHT : ℚ
deriving Repr, DecidableEq

/-- Modelled from the spec: default configuration values.  The first three
fields carry the defaults of `src/config.py` (2000 ms, 100 kbps, 0.75); the
rest follow the spec (throughput weighted slightly above latency, both far
above jitter and loss, weights summing to 1, a fixed reliability baseline
blended with the measured ratio). -/
def defaultCfg : Cfg where
  SUPPORTED_PROTOCOLS := ["vmess", "vless", "trojan", "ss"]
  MAX_LATENCY_MS := 2000
  MIN_THROUGHPUT_KBPS := 100
  MIN_RELIABILITY := 3/4
  IDEAL_LATENCY_MS := 50
  IDEAL_JITTER_MS := 5
  MAX_JITTER_MS := 100
  IDEAL_THROUGHPUT_KBPS := 10000
  IDEAL_PACKET_LOSS := 0
  MAX_PACKET_LOSS := 5
  LATENCY_WEIGHT := 35/100
  JITTER_WEIGHT := 10/100
  THROUGHPUT_WEIGHT := 40/100
  PACKET_LOSS_WEIGHT := 15/100
  RELIABILITY_WEIGHT := 30/100

/-- Python builtin `max` on two rationals (kernel-computable, unlike the
lattice `max` of `ℚ`). -/
def pymax (a b : ℚ) : ℚ := if b ≤ a then a else b

/-- Python builtin `min` on two rationals. -/
def pymin (a b : ℚ) : ℚ := if a ≤ b then a else b

/-- Static method `MetricsAnalyzer._normalize_log` from
`src/network_metrics.py`.  The `value is None` guard of the source cannot
fire here because every caller passes a present value. -/
def MetricsAnalyzer._normalize_log (value ideal : ℚ) : ℚ :=
  if value ≤ 0 then 0
  else
    let ideal := if ideal ≤ 0 then 1 else ideal
    pymax 0 (pymin 1 (ideal / value))

/-- Static method `MetricsAnalyzer._normalize_linear` from
`src/network_metrics.py`. -/
def MetricsAnalyzer._normalize_linear (value min_val max_val : ℚ)
    (reverse : Bool := false) : ℚ :=
  if reverse then
    if max_val ≤ value then 0
    else if value ≤ min_val then 1
    else (max_val - value) / (max_val - min_val)
  else
    if value ≤ min_val then 0
    else if max_val ≤ value then 1
    else (value - min_val) / (max_val - min_val)

/-- Static method `MetricsAnalyzer._get_latency_score`. -/
def MetricsAnalyzer._get_latency_score (cfg : Cfg) (latency_ms : ℚ) : ℚ :=
  MetricsAnalyzer._normalize_log latency_ms cfg.IDEAL_LATENCY_MS

/-- Static method `MetricsAnalyzer._get_jitter_score`. -/
def MetricsAnalyzer._get_jitter_score (cfg : Cfg) (jitter_ms : ℚ) : ℚ :=
  MetricsAnalyzer._normalize_linear jitter_ms cfg.IDEAL_JITTER_MS cfg.MAX_JITTER_MS true

/-- Static method `MetricsAnalyzer._get_throughput_score`. -/
def MetricsAnalyzer._get_throughput_score (cfg : Cfg) (throughput_kbps : ℚ) : ℚ :=
  MetricsAnalyzer._normalize_linear throughput_kbps 0 cfg.IDEAL_THROUGHPUT_KBPS

/-- Static method `MetricsAnalyzer._get_packet_loss_score`. -/
def MetricsAnalyzer._get_packet_loss_score (cfg : Cfg) (packet_loss : ℚ) : ℚ :=
  MetricsAnalyzer._normalize_linear packet_loss cfg.IDEAL_PACKET_LOSS cfg.MAX_PACKET_LOSS true

/-- Static method `MetricsAnalyzer.score` from `src/network_metrics.py`.
Returns `0` when `metrics` is `None`, the test failed, or any of
`latency_ms`, `throughput_kbps`, `jitter_ms` is `None`; otherwise the
weighted sum of the four sub-scores, scaled by the reliability blend and
floored at `0`.  (`metrics.packet_loss or 0` coincides with
`Option.getD _ 0` because the Python value `0.0` is falsy.) -/
def MetricsAnalyzer.score (cfg : Cfg) (metrics : Option Metrics) : ℚ :=
  match metrics with
  | none => 0
  | some m =>
    if m.success = false then 0
    else
      match m.latency_ms, m.throughput_kbps, m.jitter_ms with
      | some lat, some thr, some jit =>
        let weighted :=
          MetricsAnalyzer._get_latency_score cfg lat * cfg.LATENCY_WEIGHT +
          MetricsAnalyzer._get_jitter_score cfg jit * cfg.JITTER_WEIGHT +
          MetricsAnalyzer._get_throughput_score cfg thr * cfg.THROUGHPUT_WEIGHT +
          MetricsAnalyzer._get_packet_loss_score cfg (m.packet_loss.getD 0) *
            cfg.PACKET_LOSS_WEIGHT
        let reliability_factor := m.reliability.getD 1
        let final_score :=
          weighted * (cfg.RELIABILITY_WEIGHT * reliability_factor +
            (1 - cfg.RELIABILITY_WEIGHT))
        pymax 0 (final_score * 100)
      | _, _, _ => 0

/-- Character class of the regex `\w` used in `src/filter.py` (ASCII subset
of Python's unicode-aware `\w`). -/
def isWordChar (c : Char) : Bool := c.isAlphanum || c == '_'

/-- Characters removed by Python `str.strip()` (ASCII whitespace). -/
def isSpaceChar (c : Char) : Bool :=
  c == ' ' || c == '\t' || c == '\n' || c == '\x0d' || c == '\x0b' || c == '\x0c'

/-- Python `str.strip()` on a character list. -/
def pyStrip (cs : List Char) : List Char :=
  ((cs.dropWhile isSpaceChar).reverse.dropWhile isSpaceChar).reverse

/-- Python `str.lower()` on a character list (ASCII subset). -/
def pyLower (cs : List Char) : List Char := cs.map Char.toLower

/-- The protocol captured by `re.match(r"^(\w+)://", config)` in
`_is_node_eligible` (`src/filter.py`): the maximal nonempty word-character
prefix, provided it is immediately followed by `://`. -/
def protocolOf (config : String) : Option String :=
  let cs := config.data
  let w := cs.takeWhile isWordChar
  if w.length > 0 && "://".data.isPrefixOf (cs.drop w.length) then
    some (String.mk w)
  else none

/-- Function `_is_node_eligible` from `src/filter.py`: supported protocol
scheme, successful measurement, latency at most `MAX_LATENCY_MS`, throughput
at least `MIN_THROUGHPUT_KBPS`.  (A present `Metrics` object is always
truthy in Python, so `not metrics` is exactly the `none` case.) -/
def _is_node_eligible (cfg : Cfg) (config : String) (metrics : Option Metrics) : Bool :=
  match protocolOf config with
  | none => false
  | some p =>
    if ¬ cfg.SUPPORTED_PROTOCOLS.contains (String.mk (pyLower p.data)) then false
    else
      match metrics with
      | none => false
      | some m =>
        if m.success = false then false
        else
          match m.latency_ms with
          | none => false
          | some lat =>
            if cfg.MAX_LATENCY_MS < lat then false
            else
              match m.throughput_kbps with
              | none => false
              | some thr => decide (cfg.MIN_THROUGHPUT_KBPS ≤ thr)

/-- Python `int(x)` on a float: truncation toward zero. -/
def pyInt (q : ℚ) : Int := if 0 ≤ q then ⌊q⌋ else ⌈q⌉

/-- Rounding to the nearest integer with ties to even, as Python's fixed
format specifier does on the exact value. -/
def roundHalfEven (q : ℚ) : Int :=
  let f := ⌊q⌋
  let r := q - (f : ℚ)
  if r < 1/2 then f
  else if (1 : ℚ)/2 < r then f + 1
  else if f % 2 = 0 then f else f + 1

/-- Left-pads a digit string with zeros up to width `d`. -/
def padLeftZeros (s : String) (d : Nat) : String :=
  if d ≤ s.length then s else String.mk (List.replicate (d - s.length) '0') ++ s

/-- Python `f"{q:.d f}"`: fixed-point rendering with `d` decimals (the
model renders the sign of an exact zero as `""`, and rounds the exact
rational half-to-even; Python rounds the binary double the same way). -/
def formatFixed (d : Nat) (q : ℚ) : String :=
  let n := roundHalfEven (q * ((10 : ℚ) ^ d))
  let sign := if n < 0 then "-" else ""
  let a := n.natAbs
  if d = 0 then sign ++ toString a
  else sign ++ toString (a / 10 ^ d) ++ "." ++ padLeftZeros (toString (a % 10 ^ d)) d

/-- Function `_create_remark` from `src/filter.py`: the fixed remark format
`[S:score]-Speed:…-Latency:…ms-Jitter:…ms`, with throughput shown in MB/s
when the truncated kbps value is at least 1000. -/
def _create_remark (metrics : Metrics) (score : ℚ) : String :=
  let lat := match metrics.latency_ms with
    | some q => toString (pyInt q)
    | none => "N/A"
  let jit := match metrics.jitter_ms with
    | some q => toString (pyInt q)
    | none => "N/A"
  let thr_display := match metrics.throughput_kbps with
    | some q =>
      let t := pyInt q
      if 1000 ≤ t then formatFixed 2 ((t : ℚ) / 1024) ++ "MB/s"
      else toString t ++ "KB/s"
    | none => "N/AKB/s"
  "[S:" ++ formatFixed 1 score ++ "]-Speed:" ++ thr_display ++
    "-Latency:" ++ lat ++ "ms-Jitter:" ++ jit ++ "ms"

/-- Python `config.split("#")[0].strip()` as used in `src/filter.py`,
`src/utils.py` and `src/models.py` (ASCII whitespace stripping). -/
def baseConfig (config : String) : String :=
  String.mk (pyStrip (config.data.takeWhile (fun c => c != '#')))

/-- Function `_score_and_prepare_nodes` from `src/filter.py`: scores each
eligible config, drops any with score at most 1, and pairs the surviving
score with the rewritten `base#remark` config string. -/
def _score_and_prepare_nodes (cfg : Cfg) (metrics_map : String → Option Metrics) :
    List String → List (ℚ × String)
  | [] => []
  | config :: rest =>
    match metrics_map config with
    | none => _score_and_prepare_nodes cfg metrics_map rest
    | some metrics =>
      let score := MetricsAnalyzer.score cfg (some metrics)
      if score ≤ 1 then _score_and_prepare_nodes cfg metrics_map rest
      else
        (score, baseConfig config ++ "#" ++ _create_remark metrics score) ::
          _score_and_prepare_nodes cfg metrics_map rest

/-- The comparator realizing `scored_nodes.sort(reverse=True, key=lambda t:
t[0])`: Python's sort is stable and `reverse=True` reverses comparisons but
not the order of ties, which is exactly a stable merge sort under the
relation `second's score ≤ first's score`. -/
def scoreDescLe (a b : ℚ × String) : Bool := decide (b.1 ≤ a.1)

/-- Function `filter_and_rank` from `src/filter.py`: keep eligible configs,
score and annotate them, sort by descending score (stable), and return the
annotated config strings. -/
def filter_and_rank (cfg : Cfg) (raw_configs : List String)
    (metrics_map : String → Option Metrics) : List String :=
  let eligible_configs := raw_configs.filter
    (fun config => _is_node_eligible cfg config (metrics_map config))
  let scored_nodes := _score_and_prepare_nodes cfg metrics_map eligible_configs
  (scored_nodes.mergeSort scoreDescLe).map Prod.snd

/-- Characters allowed in a URL scheme after its first letter
(`urllib.parse.scheme_chars`). -/
def isSchemeChar (c : Char) : Bool := c.isAlphanum || c == '+' || c == '-' || c == '.'

/-- Decidable equality for `Except`, used to evaluate parser results. -/
instance {ε α : Type} [DecidableEq ε] [DecidableEq α] : DecidableEq (Except ε α) :=
  fun a b =>
    match a, b with
    | .ok x, .ok y =>
      if h : x = y then .isTrue (by rw [h]) else .isFalse (by simp [h])
    | .error x, .error y =>
      if h : x = y then .isTrue (by rw [h]) else .isFalse (by simp [h])
    | .ok _, .error _ => .isFalse (by simp)
    | .error _, .ok _ => .isFalse (by simp)

/-- Parsed components of a config URI, as produced by `urllib.parse.urlparse`
and consumed by `get_node_id` / `Node.__post_init__`.  `port` is `error` when
accessing `parsed.port` would raise `ValueError` (non-numeric or out-of-range
port). -/
structure UrlParts where
  scheme : String
  hostname : Option String
  port : Except Unit (Option Nat)
  path : String
deriving Repr, DecidableEq

/-- Scheme splitting of `urlparse` (CPython 3.11): a colon must exist with a
nonempty prefix whose first character is an ASCII letter and whose remaining
characters are scheme characters; the scheme is lowercased. -/
def splitScheme (cs : List Char) : String × List Char :=
  let pre := cs.takeWhile (fun c => c != ':')
  match cs.drop pre.length with
  | ':' :: tail =>
    match pre with
    | [] => ("", cs)
    | c0 :: _ =>
      if c0.isAlpha && pre.all isSchemeChar then (String.mk (pyLower pre), tail)
      else ("", cs)
  | _ => ("", cs)

/-- Netloc extraction of `urlparse`: everything after `//` up to the first
`/`, `?` or `#`. -/
def splitNetloc (cs : List Char) : List Char × List Char :=
  let nl := cs.takeWhile (fun c => c != '/' && c != '?' && c != '#')
  (nl, cs.drop nl.length)

/-- Parameter splitting of `urlparse`: `;params` are cut from the last path
segment only. -/
def splitParams (path : List Char) : List Char :=
  if path.contains ';' then
    if path.contains '/' then
      let lastSeg := (path.reverse.takeWhile (fun c => c != '/')).reverse
      if lastSeg.contains ';' then
        path.take (path.length - lastSeg.length) ++
          lastSeg.takeWhile (fun c => c != ';')
      else path
    else path.takeWhile (fun c => c != ';')
  else path

/-- The substring of the netloc after its last `@`
(`netloc.rpartition('@')[2]`). -/
def afterLastAt (netloc : List Char) : List Char :=
  (netloc.reverse.takeWhile (fun c => c != '@')).reverse

/-- Host / raw-port splitting of `urllib.parse._hostinfo`: strip userinfo,
then either the bracketed IPv6 form or a split at the first colon. -/
def hostPortOf (netloc : List Char) : List Char × List Char :=
  let hostinfo := afterLastAt netloc
  if hostinfo.contains '[' then
    let bracketed := (hostinfo.dropWhile (fun c => c != '[')).drop 1
    let host := bracketed.takeWhile (fun c => c != ']')
    let afterBr := (bracketed.drop host.length).drop 1
    (host, (afterBr.dropWhile (fun c => c != ':')).drop 1)
  else
    let host := hostinfo.takeWhile (fun c => c != ':')
    (host, (hostinfo.drop host.length).drop 1)

/-- The `ParseResult.port` property: absent when empty, `ValueError` when not
a plain decimal number or out of range (the model accepts the plain-decimal
subset of Python's `int(·, 10)`). -/
def parsePort (port : List Char) : Except Unit (Option Nat) :=
  if port.isEmpty then .ok none
  else if port.all Char.isDigit then
    let v := port.foldl (fun acc c => acc * 10 + (c.toNat - '0'.toNat)) 0
    if v ≤ 65535 then .ok (some v) else .error ()
  else .error ()

/-- The subset of `urllib.parse.urlparse` consulted by `get_node_id` and
`Node.__post_init__` (the input has already had its fragment removed, so `#`
never occurs).  The hostname is lowercased and `None` when empty. -/
def urlparse (s : String) : UrlParts :=
  let (scheme, rest) := splitScheme s.data
  if "//".data.isPrefixOf rest then
    let (netloc, after) := splitNetloc (rest.drop 2)
    let hp := hostPortOf netloc
    { scheme := scheme
      hostname := if hp.1.isEmpty then none else some (String.mk (pyLower hp.1))
      port := parsePort hp.2
      path := String.mk (splitParams (after.takeWhile (fun c => c != '?'))) }
  else
    { scheme := scheme
      hostname := none
      port := .ok none
      path := String.mk (splitParams (rest.takeWhile (fun c => c != '?'))) }

/-- Whether the parsed path takes part in the identifier: the condition
`parsed.scheme in ('ws','grpc') and parsed.path and parsed.path != '/'`
shared by `src/utils.py` and `src/models.py`. -/
def pathSignificant (u : UrlParts) : Bool :=
  (u.scheme == "ws" || u.scheme == "grpc") && u.path != "" && u.path != "/"

/-- The identifier string hashed by `get_node_id` (`src/utils.py`) and
`Node.__post_init__` (`src/models.py`): `host:port` (plus `:path` for
`ws`/`grpc` with a significant path) when the stripped base URI has a truthy
hostname and port, the whole base URI otherwise.  `error` models the
`ValueError` that accessing an invalid `parsed.port` raises; a Python port
of `0` is falsy and falls back to the base URI. -/
def identifierOfParts (base : String) (parsed : UrlParts) : Except Unit String :=
  match parsed.hostname with
  | none => .ok base
  | some h =>
    match parsed.port with
    | .error e => .error e
    | .ok none => .ok base
    | .ok (some p) =>
      if p = 0 then .ok base
      else if pathSignificant parsed then
        .ok (h ++ ":" ++ toString p ++ ":" ++ parsed.path)
      else .ok (h ++ ":" ++ toString p)

/-- The identifier computed on a config string: fragment stripping, parse,
branch (see `identifierOfParts`). -/
def identifier (config : String) : Except Unit String :=
  identifierOfParts (baseConfig config) (urlparse (baseConfig config))

/-- Functions `get_node_id` (`src/utils.py`, SHA-1) and `Node.__post_init__`
(`src/models.py`, SHA-256) both hash `identifier` with a fixed hex digest;
the digest is a parameter because every property of interest depends only on
the digest being a function of the identifier. -/
def get_node_id (digest : String → String) (config : String) : Except Unit String :=
  (identifier config).map digest

/-- Class `NodeHistory` from `src/history.py`: a bounded deque of boolean
outcomes with a maintained success count.  `success_count` and `total_tests`
are Python ints. -/
structure NodeHistory where
  maxlen : Nat
  test_results : List Bool
  success_count : Int
  total_tests : Int
deriving Repr, DecidableEq

/-- Constructor `NodeHistory(max_size)` (default 50): empty window, zero
counts. -/
def NodeHistory.fresh (max_size : Nat := 50) : NodeHistory :=
  { maxlen := max_size, test_results := [], success_count := 0, total_tests := 0 }

/-- Method `NodeHistory.add_test_result` from `src/history.py`.  When the
deque is full the oldest entry is evicted by the append and the success
count is adjusted beforehand by inspecting `test_results[0]`; `none` models
the `IndexError` that indexing an empty deque raises (reachable only with
`maxlen = 0`). -/
def NodeHistory.add_test_result (h : NodeHistory) (success : Bool) : Option NodeHistory :=
  if h.test_results.length = h.maxlen then
    match h.test_results with
    | [] => none
    | oldest :: rest =>
      let sc := if oldest then h.success_count - 1 else h.success_count
      let w := rest ++ [success]
      some { h with test_results := w
                    success_count := if success then sc + 1 else sc
                    total_tests := (w.length : Int) }
  else
    let w := h.test_results ++ [success]
    some { h with test_results := w
                  success_count :=
                    if success then h.success_count + 1 else h.success_count
                  total_tests := (w.length : Int) }

/-- Property `NodeHistory.reliability`: success ratio, `1.0` for an empty
history (`not self.total_tests` is Python truthiness of the int). -/
def NodeHistory.reliability (h : NodeHistory) : ℚ :=
  if h.total_tests = 0 then 1 else (h.success_count : ℚ) / (h.total_tests : ℚ)

/-- Repeated `add_test_result` calls, left to right; `none` as soon as one
call raises. -/
def recordAll (h : NodeHistory) : List Bool → Option NodeHistory
  | [] => some h
  | b :: rest =>
    match h.add_test_result b with
    | none => none
    | some h' => recordAll h' rest

/-- A JSON value as produced by `json.load` (numbers restricted to the
integers that occur in the history artifact). -/
inductive Json where
  | null
  | bool (b : Bool)
  | num (n : Int)
  | str (s : String)
  | arr (xs : List Json)
  | obj (kvs : List (String × Json))

/-- The Python exceptions that can escape `HistoryManager.load_history`. -/
inductive PyErr where
  | attributeError
  | typeError
  | valueError
deriving Repr, DecidableEq

/-- Python `data.get(k, d)` on a parsed JSON object (objects from `json.load`
have distinct keys). -/
def Json.lookupD (kvs : List (String × Json)) (k : String) (d : Json) : Json :=
  match kvs.find? (fun kv => kv.1 == k) with
  | some kv => kv.2
  | none => d

/-- Iterating a JSON value, as `deque.extend` does with its argument: lists
iterate their elements, strings their characters, objects their keys;
numbers, booleans and `null` raise `TypeError`. -/
def Json.iterate : Json → Except PyErr (List Json)
  | .arr xs => .ok xs
  | .str s => .ok (s.data.map (fun c => .str (String.mk [c])))
  | .obj kvs => .ok (kvs.map (fun kv => .str kv.1))
  | _ => .error .typeError

/-- The in-memory node history as reconstructed by
`NodeHistory.from_dict`: the deque holds whatever JSON values were stored,
and the counts are taken verbatim from the artifact. -/
structure NodeHistoryJ where
  maxlen : Nat
  window : List Json
  success_count : Json
  total_tests : Json

/-- Classmethod `NodeHistory.from_dict` from `src/history.py`: calling
`.get` on a non-object raises `AttributeError`; `deque(maxlen=…)` needs an
integer (Python `bool` is an `int`), non-negative; `extend` truncates the
window to its last `maxlen` entries. -/
def NodeHistory.from_dict (data : Json) : Except PyErr NodeHistoryJ :=
  match data with
  | .obj kvs =>
    let mlJ : Except PyErr Nat :=
      match Json.lookupD kvs "max_size" (.num 50) with
      | .num n => if n < 0 then .error .valueError else .ok n.toNat
      | .bool b => .ok (if b then 1 else 0)
      | _ => .error .typeError
    match mlJ with
    | .error e => .error e
    | .ok ml =>
      match (Json.lookupD kvs "test_results" (.arr [])).iterate with
      | .error e => .error e
      | .ok xs =>
        .ok { maxlen := ml
              window := xs.drop (xs.length - ml)
              success_count := Json.lookupD kvs "success_count" (.num 0)
              total_tests := Json.lookupD kvs "total_tests" (.num 0) }
  | _ => .error .attributeError

/-- The state of the persisted history artifact as seen by
`HistoryManager.load_history`: the file may be absent, unreadable (an
`IOError` from `open` or the read), or readable with some `json.load`
outcome (a parse error or a JSON value). -/
inductive FileReadResult where
  | missing
  | ioError
  | content (parsed : Except String Json)

/-- Entry-by-entry reconstruction of the dict comprehension in
`load_history`; the first exception raised by `from_dict` propagates. -/
def loadEntries : List (String × Json) → Except PyErr (List (String × NodeHistoryJ))
  | [] => .ok []
  | kv :: rest =>
    match NodeHistory.from_dict kv.2 with
    | .error e => .error e
    | .ok h =>
      match loadEntries rest with
      | .error e => .error e
      | .ok hs => .ok ((kv.1, h) :: hs)

/-- Method `HistoryManager.load_history` from `src/history.py`: a missing
file returns early; `json.JSONDecodeError` and `IOError` are caught and
reset the history to empty; any other exception — `data.items()` on a
non-object (`AttributeError`), or an error inside `from_dict` — is not in
the `except` clause and propagates. -/
def load_history (r : FileReadResult) : Except PyErr (List (String × NodeHistoryJ)) :=
  match r with
  | .missing => .ok []
  | .ioError => .ok []
  | .content (.error _) => .ok []
  | .content (.ok j) =>
    match j with
    | .obj kvs => loadEntries kvs
    | _ => .error .attributeError

/-- Dataclass `NodeMetrics` from `src/models.py` (the `node_id` field is
kept outside the model; latency and throughput default to `0.0`). -/
structure NMetrics where
  success : Bool
  latency_ms : ℚ := 0
  throughput_kbps : ℚ := 0
  error : Option String := none
deriving Repr, DecidableEq

/-- Outcome of `XrayTester._perform_tests` for one probe attempt.  Every
exception raised inside `_perform_tests` — `aiohttp` connector and response
errors, timeouts, and unexpected exceptions — is re-raised there as
`ConnectionTestError`; `cancelled` is an `asyncio.CancelledError`, which is
not an `Exception` and passes through. -/
inductive ProbeOutcome where
  | success (latency throughput : ℚ)
  | connectorError
  | responseError
  | timeoutError
  | unexpectedError
  | cancelled
deriving Repr, DecidableEq

/-- One node evaluation's environment: which steps of the
`XrayManager` lifecycle succeed.  `write_raises` models the `async with
asyncio.to_thread(…)` statement in `_create_config_file`, which raises
`TypeError` at runtime (a coroutine is not an async context manager) after
`mkstemp` has already created the temporary file; `false` follows the
author-intended write path. -/
structure XEnv where
  parse_ok : Bool
  write_raises : Bool
  binary_exists : Bool
  spawn_ok : Bool
  port_ready : Bool
  exits_in_grace : Bool
  probe : ProbeOutcome
deriving Repr, DecidableEq

/-- Observable resource state of one evaluation: the temporary config file,
the engine subprocess, and how often the leased port was put back into the
pool. -/
structure RState where
  tempCreated : Bool := false
  tempRemoved : Bool := false
  procStarted : Bool := false
  termRequested : Bool := false
  killed : Bool := false
  procStopped : Bool := false
  portReleases : Nat := 0
deriving Repr, DecidableEq

/-- The exceptions distinguished by `XrayTester.test_node`. -/
inductive XExc where
  | configError
  | startupError
  | connectionError
  | unexpectedError
  | cancelled
deriving Repr, DecidableEq

/-- Method `XrayManager.__aexit__` from `src/xray_tester.py`: if the process
was started and is still running, ask it to terminate and wait up to the
grace period, killing it on timeout; then remove the config file if it still
exists. -/
def xrayAexit (env : XEnv) (s : RState) : RState :=
  let s :=
    if s.procStarted ∧ ¬ s.procStopped then
      if env.exits_in_grace then
        { s with termRequested := true, procStopped := true }
      else
        { s with termRequested := true, killed := true, procStopped := true }
    else s
  if s.tempCreated ∧ ¬ s.tempRemoved then { s with tempRemoved := true } else s

/-- Method `XrayManager.__aenter__` from `src/xray_tester.py`:
config-file creation (parse failure raises `XrayConfigError` before any file
exists; the file write happens after `mkstemp`), binary check, subprocess
spawn, readiness poll.  Only the readiness-timeout path calls `__aexit__`
itself before raising. -/
def xrayAenter (env : XEnv) (s : RState) : RState × Option XExc :=
  if ¬ env.parse_ok then (s, some .configError)
  else
    let s := { s with tempCreated := true }
    if env.write_raises then (s, some .unexpectedError)
    else if ¬ env.binary_exists then (s, some .startupError)
    else if ¬ env.spawn_ok then (s, some .startupError)
    else
      let s := { s with procStarted := true }
      if ¬ env.port_ready then (xrayAexit env s, some .startupError)
      else (s, none)

/-- Method `XrayTester.test_node` from `src/xray_tester.py`: acquire a port,
run the probe inside `async with XrayManager(…)`, convert each
`XrayConfigError` / `XrayStartupError` / `ConnectionTestError` / unexpected
exception into a failed `NodeMetrics`, and release the port in the
`finally` block.  Python does not call `__aexit__` when `__aenter__` raises;
it does call it when the body raises or is cancelled.  `CancelledError` is
not caught by `except Exception` and propagates (modelled as `Except.error`). -/
def xray_test_node (env : XEnv) : Except Unit NMetrics × RState :=
  let s : RState := {}
  let (s, enterExc) := xrayAenter env s
  let (s, outcome) : RState × Except XExc NMetrics :=
    match enterExc with
    | some e => (s, .error e)
    | none =>
      match env.probe with
      | .success lat thr =>
        (xrayAexit env s, .ok { success := true, latency_ms := lat, throughput_kbps := thr })
      | .connectorError => (xrayAexit env s, .error .connectionError)
      | .responseError => (xrayAexit env s, .error .connectionError)
      | .timeoutError => (xrayAexit env s, .error .connectionError)
      | .unexpectedError => (xrayAexit env s, .error .connectionError)
      | .cancelled => (xrayAexit env s, .error .cancelled)
  let result : Except Unit NMetrics :=
    match outcome with
    | .ok m => .ok m
    | .error .configError => .ok { success := false, error := some "config_error" }
    | .error .startupError => .ok { success := false, error := some "startup_error" }
    | .error .connectionError => .ok { success := false, error := some "connection_error" }
    | .error .unexpectedError => .ok { success := false, error := some "unknown_error" }
    | .error .cancelled => .error ()
  (result, { s with portReleases := s.portReleases + 1 })

/-- Outcome of one `HiddifyTester._rpc_call`: a JSON result carrying the
looked-up numeric field (absent when the key is missing), an
`aiohttp.ClientError`, the `RuntimeError` raised on an RPC error payload, an
unexpected exception, or cancellation. -/
inductive RpcResult where
  | ok (value : Option ℚ)
  | clientError
  | runtimeError
  | unexpectedError
  | cancelled
deriving Repr, DecidableEq

/-- Environment of one `HiddifyTester.test_node` call: the outcomes of the
three RPC calls it can make. -/
structure HEnv where
  selectCall : RpcResult
  latencyCall : RpcResult
  speedCall : RpcResult
deriving Repr, DecidableEq

/-- Method `HiddifyTester.test_node` from `src/hiddify_tester.py`: acquire a
port; inside `try`, select the proxy, measure latency
(`latency_result.get("delay", -1)`), and if `0 < latency <
MAX_LATENCY_MS` measure speed (`download_speed / 1024`), setting `success`
only when the speed exceeds `MIN_THROUGHPUT_KBPS`; `RuntimeError`,
`ClientError` and unexpected exceptions are caught and ignored;
`finally` releases the port; cancellation propagates.  Returns the metrics
and the number of port releases. -/
def hiddify_test_node (cfg : Cfg) (env : HEnv) : Except Unit NMetrics × Nat :=
  let finish : ℚ → ℚ → Bool → Except Unit NMetrics × Nat := fun lat thr ok =>
    (.ok { success := ok, latency_ms := lat, throughput_kbps := thr }, 1)
  match env.selectCall with
  | .clientError => finish (-1) (-1) false
  | .runtimeError => finish (-1) (-1) false
  | .unexpectedError => finish (-1) (-1) false
  | .cancelled => (.error (), 1)
  | .ok _ =>
    match env.latencyCall with
    | .clientError => finish (-1) (-1) false
    | .runtimeError => finish (-1) (-1) false
    | .unexpectedError => finish (-1) (-1) false
    | .cancelled => (.error (), 1)
    | .ok delay =>
      let latency_ms := delay.getD (-1)
      if 0 < latency_ms ∧ latency_ms < cfg.MAX_LATENCY_MS then
        match env.speedCall with
        | .clientError => finish latency_ms (-1) false
        | .runtimeError => finish latency_ms (-1) false
        | .unexpectedError => finish latency_ms (-1) false
        | .cancelled => (.error (), 1)
        | .ok dl =>
          let download_kbps := dl.getD 0 / 1024
          if cfg.MIN_THROUGHPUT_KBPS < download_kbps then
            finish latency_ms download_kbps true
          else finish latency_ms (-1) false
      else finish latency_ms (-1) false

/-- Concrete measurement: passes every threshold of `_is_node_eligible`
but has reliability `0`. -/
def mRel0 : Metrics :=
  { success := true, latency_ms := some 100, jitter_ms := some 0,
    throughput_kbps := some 5000, reliability := some 0 }

/-- Metrics map assigning `mRel0` to every config. -/
def mmapRel0 : String → Option Metrics := fun _ => some mRel0

/-- Concrete successful measurement with latency and throughput present but
jitter absent. -/
def mNoJitter : Metrics :=
  { success := true, latency_ms := some 100, jitter_ms := none,
    throughput_kbps := some 5000, reliability := some 1 }

/-- Evaluation environment in which the config file is written but the
engine binary is missing: `__aenter__` raises `XrayStartupError` after the
temporary file exists. -/
def xEnvNoBinary : XEnv :=
  { parse_ok := true, write_raises := false, binary_exists := false,
    spawn_ok := true, port_ready := true, exits_in_grace := true,
    probe := .success 0 0 }

/-- Evaluation environment following the code as shipped: the
`async with asyncio.to_thread(…)` statement in `_create_config_file` raises
after `mkstemp`. -/
def xEnvWriteRaises : XEnv :=
  { parse_ok := true, write_raises := true, binary_exists := true,
    spawn_ok := true, port_ready := true, exits_in_grace := true,
    probe := .success 0 0 }

/-- Consistency of a `NodeHistory` record: the maintained count equals the
number of successes inside the window, `total_tests` is the window length,
and the window never exceeds its capacity. -/
def histInv (h : NodeHistory) : Prop :=
  h.success_count = (h.test_results.count true : Int) ∧
  h.total_tests = (h.test_results.length : Int) ∧
  h.test_results.length ≤ h.maxlen

/-!
## Theorems
-/

/-- Successes and failures together fill a boolean window. -/
theorem count_true_add_count_false (l : List Bool) :
    l.count true + l.count false = l.length := by
  induction l with
  | nil => rfl
  | cons b rest ih =>
    cases b <;> simp [List.count_cons] <;> omega

/-- One `add_test_result` call on a consistent history with positive
capacity succeeds and preserves consistency and the capacity. -/
theorem add_test_result_inv (h : NodeHistory) (b : Bool) (hm : 1 ≤ h.maxlen)
    (hI : histInv h) :
    ∃ h', h.add_test_result b = some h' ∧ histInv h' ∧ h'.maxlen = h.maxlen := by
  obtain ⟨hsc, htt, hlen⟩ := hI
  unfold NodeHistory.add_test_result
  by_cases hfull : h.test_results.length = h.maxlen
  · rw [if_pos hfull]
    cases hw : h.test_results with
    | nil => rw [hw] at hfull; simp at hfull; omega
    | cons oldest rest =>
      rw [hw] at hsc htt hfull
      refine ⟨_, rfl, ⟨?_, rfl, ?_⟩, rfl⟩
      · simp only [List.count_cons, List.count_append, List.count_singleton] at hsc ⊢
        cases oldest <;> cases b <;> simp_all
      · simp only [List.length_append, List.length_cons] at hfull ⊢
        simp
        omega
  · rw [if_neg hfull]
    refine ⟨_, rfl, ⟨?_, rfl, ?_⟩, rfl⟩
    · simp only [List.count_append, List.count_singleton] at hsc ⊢
      cases b <;> simp_all
    · simp only [List.length_append, List.length_singleton]
      omega

/-- `recordAll` on a consistent history with positive capacity succeeds and
preserves consistency and the capacity. -/
theorem recordAll_inv (outcomes : List Bool) :
    ∀ h : NodeHistory, 1 ≤ h.maxlen → histInv h →
      ∃ h', recordAll h outcomes = some h' ∧ histInv h' ∧ h'.maxlen = h.maxlen := by
  induction outcomes with
  | nil => intro h _ hI; exact ⟨h, rfl, hI, rfl⟩
  | cons b rest ih =>
    intro h hm hI
    obtain ⟨h1, hadd, hI1, hml⟩ := add_test_result_inv h b hm hI
    obtain ⟨h2, hrec, hI2, hml2⟩ := ih h1 (hml ▸ hm) hI1
    refine ⟨h2, ?_, hI2, by rw [hml2, hml]⟩
    simp only [recordAll, hadd, hrec]

/-- `add_test_result` on a non-full window appends. -/
theorem add_test_result_notfull (h : NodeHistory) (b : Bool)
    (hnf : h.test_results.length ≠ h.maxlen) :
    h.add_test_result b =
      some { h with
             test_results := h.test_results ++ [b]
             success_count := if b then h.success_count + 1 else h.success_count
             total_tests := ((h.test_results ++ [b]).length : Int) } := by
  unfold NodeHistory.add_test_result
  rw [if_neg hnf]

/-- `add_test_result` on a full window evicts the oldest entry, adjusting
the count by the evicted entry and the appended one. -/
theorem add_test_result_full (h : NodeHistory) (b oldest : Bool)
    (rest : List Bool) (hw : h.test_results = oldest :: rest)
    (hfull : h.test_results.length = h.maxlen) :
    h.add_test_result b =
      some { h with
             test_results := rest ++ [b]
             success_count :=
               if b then (if oldest then h.success_count - 1 else h.success_count) + 1
               else (if oldest then h.success_count - 1 else h.success_count)
             total_tests := ((rest ++ [b]).length : Int) } := by
  have hfull' : (oldest :: rest).length = h.maxlen := by rw [← hw]; exact hfull
  unfold NodeHistory.add_test_result
  rw [hw, if_pos hfull']

/-- `recordAll` splits over list concatenation. -/
theorem recordAll_append (l1 l2 : List Bool) : ∀ h : NodeHistory,
    recordAll h (l1 ++ l2) =
      match recordAll h l1 with
      | none => none
      | some h' => recordAll h' l2 := by
  induction l1 with
  | nil => intro h; rfl
  | cons b rest ih =>
    intro h
    simp only [List.cons_append, recordAll]
    cases h.add_test_result b with
    | none => rfl
    | some h1 => exact ih h1

/-- Filling a window that has enough room appends all outcomes in order. -/
theorem recordAll_fill (l : List Bool) : ∀ h : NodeHistory,
    h.test_results.length + l.length ≤ h.maxlen →
    ∃ h', recordAll h l = some h' ∧ h'.test_results = h.test_results ++ l ∧
      h'.maxlen = h.maxlen := by
  induction l with
  | nil => intro h _; exact ⟨h, rfl, by simp, rfl⟩
  | cons b rest ih =>
    intro h hle
    simp only [List.length_cons] at hle
    have hnf : h.test_results.length ≠ h.maxlen := by omega
    obtain ⟨h', hrec, hw, hm⟩ := ih
      { h with
        test_results := h.test_results ++ [b]
        success_count := if b then h.success_count + 1 else h.success_count
        total_tests := ((h.test_results ++ [b]).length : Int) }
      (by simp only [List.length_append, List.length_singleton]; omega)
    refine ⟨h', ?_, ?_, hm⟩
    · simp only [recordAll, add_test_result_notfull h b hnf, hrec]
    · rw [hw]; simp

/-- C7: recording any finite outcome sequence into a fresh window of
positive capacity `c` keeps the maintained count consistent after every
append — the derived failure count (`total_tests - success_count`) always
equals the number of failures currently inside the window — and in
particular one failure followed by `c-1` successes and one more success
leaves a failure count of `0` (the failure aged out, the count having been
adjusted by the evicted entry independently of the appended value). -/
theorem C7_history_window_invariant (c : Nat) (hc : 1 ≤ c) :
    (∀ outcomes : List Bool, ∃ h,
        recordAll (NodeHistory.fresh c) outcomes = some h ∧
        h.total_tests - h.success_count = (h.test_results.count false : Int) ∧
        h.total_tests = (h.test_results.length : Int))
    ∧ ∃ h, recordAll (NodeHistory.fresh c)
          (false :: (List.replicate (c - 1) true ++ [true])) = some h ∧
        h.total_tests - h.success_count = 0 := by
  have hIfresh : histInv (NodeHistory.fresh c) := ⟨rfl, rfl, by simp [NodeHistory.fresh]⟩
  have hmfresh : 1 ≤ (NodeHistory.fresh c).maxlen := hc
  constructor
  · intro outcomes
    obtain ⟨h, hrec, ⟨hsc, htt, _⟩, _⟩ :=
      recordAll_inv outcomes (NodeHistory.fresh c) hmfresh hIfresh
    refine ⟨h, hrec, ?_, htt⟩
    have hcnt := count_true_add_count_false h.test_results
    omega
  · have hfillLen : (NodeHistory.fresh c).test_results.length +
        (false :: List.replicate (c - 1) true).length ≤ (NodeHistory.fresh c).maxlen := by
      simp [NodeHistory.fresh]
      omega
    obtain ⟨h1, hrec1, hw1, hm1⟩ :=
      recordAll_fill (false :: List.replicate (c - 1) true) (NodeHistory.fresh c) hfillLen
    have hw1' : h1.test_results = false :: List.replicate (c - 1) true := by
      simpa [NodeHistory.fresh] using hw1
    have hfull : h1.test_results.length = h1.maxlen := by
      rw [hw1', hm1]
      simp [NodeHistory.fresh]
      omega
    have hsc1 : h1.success_count = ((c : Int) - 1) := by
      obtain ⟨h1', hrec1', ⟨hsc', _, _⟩, _⟩ :=
        recordAll_inv (false :: List.replicate (c - 1) true) (NodeHistory.fresh c)
          hmfresh hIfresh
      rw [hrec1] at hrec1'
      cases hrec1'
      rw [hsc', hw1']
      simp [List.count_cons, List.count_replicate]
      omega
    have hadd := add_test_result_full h1 true false (List.replicate (c - 1) true) hw1' hfull
    have hsplit : false :: (List.replicate (c - 1) true ++ [true]) =
        (false :: List.replicate (c - 1) true) ++ [true] := by simp
    rw [hsplit, recordAll_append, hrec1]
    refine ⟨{ maxlen := h1.maxlen
              test_results := List.replicate (c - 1) true ++ [true]
              success_count := h1.success_count + 1
              total_tests := ((List.replicate (c - 1) true ++ [true]).length : Int) },
            ?_, ?_⟩
    · simp [recordAll, hadd]
    · simp only [List.length_append, List.length_replicate, List.length_singleton]
      rw [hsc1]
      push_cast
      omega

/-- Witness for C7 at capacity 3. -/
theorem C7_history_window_invariant_witness :
    ∃ h, recordAll (NodeHistory.fresh 3) (false :: (List.replicate 2 true ++ [true])) =
        some h ∧ h.total_tests - h.success_count = 0 :=
  (C7_history_window_invariant 3 (by decide)).2

/-- C8 counterexample: the claim says loading never raises, for any state of
the artifact including syntactically valid JSON of an unexpected shape; but
on a valid top-level JSON array `data.items()` raises `AttributeError`,
which the `except (json.JSONDecodeError, IOError)` clause does not catch. -/
theorem C8_counterexample_valid_json_array_raises :
    load_history (.content (.ok (.arr []))) = .error .attributeError := rfl

/-- Entry reconstruction raises whenever some entry's value is not a JSON
object: either an earlier entry already fails inside `from_dict`, or the
non-object entry itself raises `AttributeError` on its `.get` call. -/
theorem loadEntries_error_of_mem (kvs : List (String × Json)) (k : String)
    (j : Json) (hj : match j with | .obj _ => False | _ => True)
    (hmem : (k, j) ∈ kvs) : ∃ e, loadEntries kvs = .error e := by
  induction kvs with
  | nil => exact absurd hmem (List.not_mem_nil _)
  | cons kv rest ih =>
    rcases List.mem_cons.mp hmem with hEq | hTail
    · have hfd : NodeHistory.from_dict j = .error .attributeError := by
        cases j <;> first | rfl | exact hj.elim
      refine ⟨.attributeError, ?_⟩
      rw [← hEq]
      simp only [loadEntries, hfd]
    · cases hfd : NodeHistory.from_dict kv.2 with
      | error e => exact ⟨e, by simp only [loadEntries, hfd]⟩
      | ok h =>
        obtain ⟨e, he⟩ := ih hTail
        exact ⟨e, by simp only [loadEntries, hfd, he]⟩

/-- C8 amended: loading a missing file, an unreadable file, or invalid JSON
does not raise and leaves the history empty; but syntactically valid JSON of
unexpected shape raises uncaught: a non-object top level raises
`AttributeError` from `data.items()`, and a top-level object containing a
non-object per-node entry raises from inside `from_dict` (the first failing
entry's exception). -/
theorem C8_amended_load_tolerance :
    (∀ r : FileReadResult,
        (r = .missing ∨ r = .ioError ∨ ∃ e, r = .content (.error e)) →
        load_history r = .ok [])
    ∧ (∀ j : Json, (match j with | .obj _ => False | _ => True) →
        load_history (.content (.ok j)) = .error .attributeError)
    ∧ ∀ (kvs : List (String × Json)) (k : String) (j : Json),
        (match j with | .obj _ => False | _ => True) → (k, j) ∈ kvs →
        ∃ e, load_history (.content (.ok (.obj kvs))) = .error e := by
  refine ⟨?_, ?_, ?_⟩
  · rintro r (rfl | rfl | ⟨e, rfl⟩) <;> rfl
  · intro j hj
    cases j <;> first | rfl | exact hj.elim
  · intro kvs k j hj hmem
    exact loadEntries_error_of_mem kvs k j hj hmem

/-- Witness for the C8 amended theorem: a missing file loads empty, a valid
JSON number raises, and a valid object whose entry value is a number
raises. -/
theorem C8_amended_load_tolerance_witness :
    load_history .missing = .ok [] ∧
      load_history (.content (.ok (.num 3))) = .error .attributeError ∧
      ∃ e, load_history (.content (.ok (.obj [("node1", .num 1)]))) = .error e :=
  ⟨C8_amended_load_tolerance.1 .missing (Or.inl rfl),
   C8_amended_load_tolerance.2.1 (.num 3) trivial,
   C8_amended_load_tolerance.2.2 [("node1", .num 1)] "node1" (.num 1) trivial
     (List.mem_singleton.mpr rfl)⟩

/-- `_score_and_prepare_nodes` distributes over list concatenation. -/
theorem scoreAndPrepare_append (cfg : Cfg) (m : String → Option Metrics)
    (l1 l2 : List String) :
    _score_and_prepare_nodes cfg m (l1 ++ l2) =
      _score_and_prepare_nodes cfg m l1 ++ _score_and_prepare_nodes cfg m l2 := by
  induction l1 with
  | nil => rfl
  | cons c rest ih =>
    cases hmc : m c with
    | none =>
      simp only [List.cons_append, _score_and_prepare_nodes, hmc]
      exact ih
    | some mt =>
      simp only [List.cons_append, _score_and_prepare_nodes, hmc, List.append_eq]
      by_cases hs : MetricsAnalyzer.score cfg (some mt) ≤ 1
      · rw [if_pos hs, if_pos hs]
        exact ih
      · rw [if_neg hs, if_neg hs, ih]
        rfl

/-- C10: a config that passes every check of `_is_node_eligible` is still
excluded from the output of `filter_and_rank` whenever its score is at most
1 — removing such a config from the input changes nothing. -/
theorem C10_low_score_excluded (cfg : Cfg) (m : String → Option Metrics)
    (l1 l2 : List String) (c : String) (mt : Metrics)
    (hmc : m c = some mt)
    (helig : _is_node_eligible cfg c (m c) = true)
    (hscore : MetricsAnalyzer.score cfg (some mt) ≤ 1) :
    filter_and_rank cfg (l1 ++ c :: l2) m = filter_and_rank cfg (l1 ++ l2) m := by
  simp only [filter_and_rank, List.filter_append, List.filter_cons, helig,
    if_pos, scoreAndPrepare_append]
  have hdrop : _score_and_prepare_nodes cfg m
      (c :: List.filter (fun config => _is_node_eligible cfg config (m config)) l2) =
      _score_and_prepare_nodes cfg m
        (List.filter (fun config => _is_node_eligible cfg config (m config)) l2) := by
    simp only [_score_and_prepare_nodes, hmc, if_pos hscore]
  rw [hdrop]

/-- Monotonicity of `pymin` in its second argument. -/
theorem pymin_mono (a : ℚ) {b c : ℚ} (h : b ≤ c) : pymin a b ≤ pymin a c := by
  unfold pymin
  split_ifs <;> linarith

/-- Monotonicity of `pymax` in its second argument. -/
theorem pymax_mono (a : ℚ) {b c : ℚ} (h : b ≤ c) : pymax a b ≤ pymax a c := by
  unfold pymax
  split_ifs <;> linarith

/-- The non-reverse linear normalization is monotone in its value. -/
theorem normalize_linear_mono (min_val max_val : ℚ) {v1 v2 : ℚ} (h : v1 ≤ v2) :
    MetricsAnalyzer._normalize_linear v1 min_val max_val false ≤
      MetricsAnalyzer._normalize_linear v2 min_val max_val false := by
  have e : ∀ v : ℚ, MetricsAnalyzer._normalize_linear v min_val max_val false =
      if v ≤ min_val then 0
      else if max_val ≤ v then 1
      else (v - min_val) / (max_val - min_val) := fun v => rfl
  rw [e, e]
  split_ifs with h1 h2 h3 h4 h5 h6 <;> try linarith
  · exact div_nonneg (by linarith) (by linarith)
  · exact (div_le_one (by linarith)).mpr (by linarith)
  · exact (div_le_div_iff_of_pos_right (by linarith)).mpr (by linarith)

/-- The logarithmic normalization is antitone on positive values. -/
theorem normalize_log_anti (ideal : ℚ) {v1 v2 : ℚ} (h0 : 0 < v1) (h : v1 ≤ v2) :
    MetricsAnalyzer._normalize_log v2 ideal ≤ MetricsAnalyzer._normalize_log v1 ideal := by
  have e : ∀ v : ℚ, MetricsAnalyzer._normalize_log v ideal =
      if v ≤ 0 then 0
      else pymax 0 (pymin 1 ((if ideal ≤ 0 then 1 else ideal) / v)) := fun v => rfl
  rw [e, e, if_neg (show ¬ v2 ≤ 0 by linarith), if_neg (show ¬ v1 ≤ 0 by linarith)]
  apply pymax_mono
  apply pymin_mono
  have hipos : (0 : ℚ) < if ideal ≤ 0 then 1 else ideal := by
    split_ifs with hh
    · norm_num
    · linarith
  exact div_le_div_of_nonneg_left hipos.le h0 h

/-- C6 counterexample: the claim quantifies the latency monotonicity over
all latency values including the boundary `latency_ms = 0`, but
`_normalize_log` scores a non-positive latency `0` while any positive
latency up to the ideal scores `1`: raising latency from `0` to `50`
strictly raises the score, so the score is not non-increasing in latency at
the boundary. -/
theorem C6_counterexample_zero_latency :
    ¬ (MetricsAnalyzer.score defaultCfg
        (some { success := true, latency_ms := some 50, jitter_ms := some 0,
                throughput_kbps := some 5000, reliability := some 1 }) ≤
      MetricsAnalyzer.score defaultCfg
        (some { success := true, latency_ms := some 0, jitter_ms := some 0,
                throughput_kbps := some 5000, reliability := some 1 }))
      ∧ (0 : ℚ) ≤ 50 := by
  constructor
  · norm_num [MetricsAnalyzer.score, MetricsAnalyzer._get_latency_score,
      MetricsAnalyzer._get_jitter_score, MetricsAnalyzer._get_throughput_score,
      MetricsAnalyzer._get_packet_loss_score, MetricsAnalyzer._normalize_log,
      MetricsAnalyzer._normalize_linear, pymax, pymin, defaultCfg]
  · norm_num

/-- C6 amended: holding the other fields and reliability fixed and assuming
non-negative latency/throughput weights and a non-negative reliability
blend, the score is monotone non-decreasing in throughput, monotone
non-increasing in latency restricted to positive latencies (at `latency_ms
= 0` the latency sub-score drops to `0`, see the counterexample), and `0`
for every failed measurement. -/
theorem C6_amended_monotonicity (cfg : Cfg) (m : Metrics)
    (hwl : 0 ≤ cfg.LATENCY_WEIGHT) (hwt : 0 ≤ cfg.THROUGHPUT_WEIGHT)
    (hr : 0 ≤ cfg.RELIABILITY_WEIGHT * m.reliability.getD 1 +
      (1 - cfg.RELIABILITY_WEIGHT)) :
    (∀ t1 t2 : ℚ, t1 ≤ t2 →
        MetricsAnalyzer.score cfg (some { m with throughput_kbps := some t1 }) ≤
          MetricsAnalyzer.score cfg (some { m with throughput_kbps := some t2 }))
    ∧ (∀ l1 l2 : ℚ, 0 < l1 → l1 ≤ l2 →
        MetricsAnalyzer.score cfg (some { m with latency_ms := some l2 }) ≤
          MetricsAnalyzer.score cfg (some { m with latency_ms := some l1 }))
    ∧ ∀ m' : Metrics, m'.success = false → MetricsAnalyzer.score cfg (some m') = 0 := by
  rcases m with ⟨s, lat, jit, pl, thr, rel⟩
  refine ⟨?_, ?_, ?_⟩
  · intro t1 t2 ht
    cases s
    · exact le_refl 0
    · cases lat with
      | none => exact le_refl 0
      | some latv =>
        cases jit with
        | none => exact le_refl 0
        | some jitv =>
          show pymax 0 _ ≤ pymax 0 _
          apply pymax_mono
          apply mul_le_mul_of_nonneg_right _ (by norm_num : (0:ℚ) ≤ 100)
          apply mul_le_mul_of_nonneg_right _ hr
          apply add_le_add_right
          apply add_le_add_left
          apply mul_le_mul_of_nonneg_right _ hwt
          exact normalize_linear_mono 0 cfg.IDEAL_THROUGHPUT_KBPS ht
  · intro l1 l2 hl0 hl
    cases s
    · exact le_refl 0
    · cases thr with
      | none => exact le_refl 0
      | some thrv =>
        cases jit with
        | none => exact le_refl 0
        | some jitv =>
          show pymax 0 _ ≤ pymax 0 _
          apply pymax_mono
          apply mul_le_mul_of_nonneg_right _ (by norm_num : (0:ℚ) ≤ 100)
          apply mul_le_mul_of_nonneg_right _ hr
          apply add_le_add_right
          apply add_le_add_right
          apply add_le_add_right
          apply mul_le_mul_of_nonneg_right _ hwl
          exact normalize_log_anti cfg.IDEAL_LATENCY_MS hl0 hl
  · intro m' hm'
    rcases m' with ⟨s', _, _, _, _, _⟩
    cases hm'
    rfl

/-- Witness for the C6 amended theorem: throughput monotone step at a
concrete measurement. -/
theorem C6_amended_monotonicity_witness :
    MetricsAnalyzer.score defaultCfg
      (some { success := true, latency_ms := some 100, jitter_ms := some 0,
              throughput_kbps := some 1000, reliability := some 1 }) ≤
      MetricsAnalyzer.score defaultCfg
        (some { success := true, latency_ms := some 100, jitter_ms := some 0,
                throughput_kbps := some 2000, reliability := some 1 }) :=
  (C6_amended_monotonicity defaultCfg
      { success := true, latency_ms := some 100, jitter_ms := some 0,
        throughput_kbps := none, reliability := some 1 }
      (by norm_num [defaultCfg]) (by norm_num [defaultCfg])
      (by norm_num [defaultCfg])).1 1000 2000 (by norm_num)

/-- The descending-score comparator is transitive. -/
theorem scoreDescLe_trans (a b c : ℚ × String) (hab : scoreDescLe a b)
    (hbc : scoreDescLe b c) : scoreDescLe a c := by
  simp only [scoreDescLe, decide_eq_true_eq] at hab hbc ⊢
  exact le_trans hbc hab

/-- The descending-score comparator is total. -/
theorem scoreDescLe_total (a b : ℚ × String) :
    scoreDescLe a b || scoreDescLe b a := by
  simp only [scoreDescLe, Bool.or_eq_true, decide_eq_true_eq]
  exact le_total b.1 a.1

/-- Stability of the stable descending sort on each score class: filtering
the sorted list down to one score value gives exactly the same subsequence,
in the same order, as filtering the input. -/
theorem mergeSort_filter_score_eq (l : List (ℚ × String)) (s : ℚ) :
    (l.mergeSort scoreDescLe).filter (fun p => p.1 == s) =
      l.filter (fun p => p.1 == s) := by
  have hmem : ∀ x ∈ l.filter (fun p => p.1 == s), x.1 = s := by
    intro x hx
    have := List.of_mem_filter hx
    simpa using this
  have hpw : (l.filter (fun p => p.1 == s)).Pairwise (fun a b => scoreDescLe a b) := by
    apply List.pairwise_of_forall_mem_list
    intro a ha b hb
    simp only [scoreDescLe, decide_eq_true_eq]
    rw [hmem a ha, hmem b hb]
  have hsub : List.Sublist (l.filter (fun p => p.1 == s)) (l.mergeSort scoreDescLe) :=
    List.sublist_mergeSort scoreDescLe_trans scoreDescLe_total hpw
      (List.filter_sublist l)
  have hsub2 : List.Sublist (l.filter (fun p => p.1 == s))
      ((l.mergeSort scoreDescLe).filter (fun p => p.1 == s)) := by
    have := List.Sublist.filter (fun p : ℚ × String => p.1 == s) hsub
    simpa [List.filter_filter] using this
  refine (hsub2.eq_of_length ?_).symm
  have hperm : List.Perm ((l.mergeSort scoreDescLe).filter (fun p => p.1 == s))
      (l.filter (fun p => p.1 == s)) :=
    List.Perm.filter _ (List.mergeSort_perm l scoreDescLe)
  exact hperm.length_eq.symm

/-- Every pair produced by `_score_and_prepare_nodes` comes from some config
of the input list with present metrics, score above 1, and the rewritten
`base#remark` string. -/
theorem mem_scoreAndPrepare (cfg : Cfg) (m : String → Option Metrics) :
    ∀ (l : List String) (p : ℚ × String), p ∈ _score_and_prepare_nodes cfg m l →
      ∃ c mt, c ∈ l ∧ m c = some mt ∧
        ¬ MetricsAnalyzer.score cfg (some mt) ≤ 1 ∧
        p = (MetricsAnalyzer.score cfg (some mt),
          baseConfig c ++ "#" ++
            _create_remark mt (MetricsAnalyzer.score cfg (some mt))) := by
  intro l
  induction l with
  | nil => intro p hp; exact absurd hp (List.not_mem_nil p)
  | cons c rest ih =>
    intro p hp
    cases hmc : m c with
    | none =>
      rw [show _score_and_prepare_nodes cfg m (c :: rest) =
          _score_and_prepare_nodes cfg m rest by
        simp only [_score_and_prepare_nodes, hmc]] at hp
      obtain ⟨c', mt', hmem, h1, h2, h3⟩ := ih p hp
      exact ⟨c', mt', List.mem_cons_of_mem c hmem, h1, h2, h3⟩
    | some mt =>
      by_cases hs : MetricsAnalyzer.score cfg (some mt) ≤ 1
      · rw [show _score_and_prepare_nodes cfg m (c :: rest) =
            _score_and_prepare_nodes cfg m rest by
          simp only [_score_and_prepare_nodes, hmc, if_pos hs]] at hp
        obtain ⟨c', mt', hmem, h1, h2, h3⟩ := ih p hp
        exact ⟨c', mt', List.mem_cons_of_mem c hmem, h1, h2, h3⟩
      · rw [show _score_and_prepare_nodes cfg m (c :: rest) =
            (MetricsAnalyzer.score cfg (some mt),
              baseConfig c ++ "#" ++
                _create_remark mt (MetricsAnalyzer.score cfg (some mt))) ::
              _score_and_prepare_nodes cfg m rest by
          simp only [_score_and_prepare_nodes, hmc, if_neg hs]] at hp
        rcases List.mem_cons.mp hp with hEq | hTail
        · exact ⟨c, mt, List.mem_cons_self c rest, hmc, hs, hEq⟩
        · obtain ⟨c', mt', hmem, h1, h2, h3⟩ := ih p hTail
          exact ⟨c', mt', List.mem_cons_of_mem c hmem, h1, h2, h3⟩

/-- C9: the list returned by `filter_and_rank` is the stable descending sort
of the scored eligible configs — its scores are pairwise non-increasing,
equal-score entries keep their input order (filtering any score class out of
the sorted list reproduces the input subsequence), and every returned string
is the stripped base of some eligible input config whose score exceeds 1,
suffixed with `#` and the fixed remark format encoding score, throughput and
latency. -/
theorem C9_rank_sorted_stable_remark (cfg : Cfg) (raw : List String)
    (m : String → Option Metrics) :
    (filter_and_rank cfg raw m =
      ((_score_and_prepare_nodes cfg m (raw.filter
          (fun config => _is_node_eligible cfg config (m config)))).mergeSort
        scoreDescLe).map Prod.snd)
    ∧ ((_score_and_prepare_nodes cfg m (raw.filter
          (fun config => _is_node_eligible cfg config (m config)))).mergeSort
        scoreDescLe).Pairwise (fun a b => b.1 ≤ a.1)
    ∧ (∀ s : ℚ,
        ((_score_and_prepare_nodes cfg m (raw.filter
            (fun config => _is_node_eligible cfg config (m config)))).mergeSort
          scoreDescLe).filter (fun p => p.1 == s) =
          (_score_and_prepare_nodes cfg m (raw.filter
            (fun config => _is_node_eligible cfg config (m config)))).filter
            (fun p => p.1 == s))
    ∧ ∀ out ∈ filter_and_rank cfg raw m, ∃ c mt,
        c ∈ raw ∧ _is_node_eligible cfg c (m c) = true ∧ m c = some mt ∧
        1 < MetricsAnalyzer.score cfg (some mt) ∧
        out = baseConfig c ++ "#" ++
          _create_remark mt (MetricsAnalyzer.score cfg (some mt)) := by
  refine ⟨rfl, ?_, ?_, ?_⟩
  · have hpw := List.sorted_mergeSort scoreDescLe_trans scoreDescLe_total
      (_score_and_prepare_nodes cfg m (raw.filter
        (fun config => _is_node_eligible cfg config (m config))))
    exact hpw.imp (fun hab => by simpa [scoreDescLe] using hab)
  · intro s
    exact mergeSort_filter_score_eq _ s
  · intro out hout
    obtain ⟨pr, hprMem, hprEq⟩ := List.mem_map.mp hout
    have hprMem' := List.mem_mergeSort.mp hprMem
    obtain ⟨c, mt, hcMem, hmc, hs, hpr⟩ := mem_scoreAndPrepare cfg m _ pr hprMem'
    obtain ⟨hcRaw, hcElig⟩ := List.mem_filter.mp hcMem
    refine ⟨c, mt, hcRaw, hcElig, hmc, lt_of_not_le hs, ?_⟩
    rw [← hprEq, hpr]

/-- Witness for C10: an eligible config whose missing jitter gives it score
0 is excluded — the singleton input produces the same (empty) ranking as the
empty input. -/
theorem C10_low_score_excluded_witness :
    filter_and_rank defaultCfg ["vless://a.com:443"] (fun _ => some mNoJitter) =
      filter_and_rank defaultCfg [] (fun _ => some mNoJitter) :=
  C10_low_score_excluded defaultCfg (fun _ => some mNoJitter) [] [] "vless://a.com:443"
    mNoJitter rfl (by decide)
    (by rw [show MetricsAnalyzer.score defaultCfg (some mNoJitter) = 0 from rfl]
        norm_num)

/-- C1: the rank/filter step is claimed to treat a node as eligible only if
(among the other checks) its reliability is at least the configured
`MIN_RELIABILITY`, and never to rank a node below that bound.
`_is_node_eligible` checks protocol, success, latency and throughput but
never reliability, and the score of a fast node with reliability `0` stays
above the `score ≤ 1` cutoff, so the node appears in the returned ranked
list: with `MIN_RELIABILITY = 3/4 > 0`, a node with reliability `0` is
ranked. -/
theorem C1_low_reliability_node_ranked :
    (filter_and_rank defaultCfg ["vless://a.com:443"] mmapRel0).length = 1
      ∧ mRel0.reliability = some 0 ∧ (0 : ℚ) < defaultCfg.MIN_RELIABILITY := by
  refine ⟨?_, rfl, by norm_num [defaultCfg]⟩
  have hscore : ¬ MetricsAnalyzer.score defaultCfg (some mRel0) ≤ 1 := by
    norm_num [MetricsAnalyzer.score, MetricsAnalyzer._get_latency_score,
      MetricsAnalyzer._get_jitter_score, MetricsAnalyzer._get_throughput_score,
      MetricsAnalyzer._get_packet_loss_score, MetricsAnalyzer._normalize_log,
      MetricsAnalyzer._normalize_linear, pymax, pymin, defaultCfg, mRel0]
  have he : ["vless://a.com:443"].filter
      (fun config => _is_node_eligible defaultCfg config (mmapRel0 config)) =
      ["vless://a.com:443"] := by decide
  unfold filter_and_rank
  rw [he]
  show (List.map Prod.snd (List.mergeSort (_score_and_prepare_nodes defaultCfg
    mmapRel0 ["vless://a.com:443"]) scoreDescLe)).length = 1
  have hsp : _score_and_prepare_nodes defaultCfg mmapRel0 ["vless://a.com:443"] =
      [(MetricsAnalyzer.score defaultCfg (some mRel0),
        baseConfig "vless://a.com:443" ++ "#" ++
          _create_remark mRel0 (MetricsAnalyzer.score defaultCfg (some mRel0)))] := by
    show (if MetricsAnalyzer.score defaultCfg (some mRel0) ≤ 1 then
        _score_and_prepare_nodes defaultCfg mmapRel0 []
      else (MetricsAnalyzer.score defaultCfg (some mRel0),
        baseConfig "vless://a.com:443" ++ "#" ++
          _create_remark mRel0 (MetricsAnalyzer.score defaultCfg (some mRel0))) ::
        _score_and_prepare_nodes defaultCfg mmapRel0 []) = _
    rw [if_neg hscore]
    rfl
  rw [hsp, List.mergeSort_singleton]
  rfl

/-- C2: every exit path of the engine-subprocess lifecycle is claimed to
terminate a started subprocess and remove the temporary config file —
including the path where entry fails after the file has been created.
Python does not run `__aexit__` when `__aenter__` raises, so when the binary
is missing (author-intended write path) or when the config write itself
raises (the code as shipped), the temporary file is created and never
removed, while `test_node` reports the failure normally. -/
theorem C2_enter_failure_leaks_temp_file :
    ((xray_test_node xEnvNoBinary).2.tempCreated = true
      ∧ (xray_test_node xEnvNoBinary).2.tempRemoved = false
      ∧ (xray_test_node xEnvNoBinary).1 =
          .ok { success := false, error := some "startup_error" })
    ∧ ((xray_test_node xEnvWriteRaises).2.tempCreated = true
      ∧ (xray_test_node xEnvWriteRaises).2.tempRemoved = false) := by
  decide

/-- C3 counterexample: the claim says a successful measurement with latency
and throughput present but jitter absent is not scored `0`; the guard of
`MetricsAnalyzer.score` also zeroes any measurement whose `jitter_ms` is
`None`, so this concrete measurement scores `0`. -/
theorem C3_counterexample_missing_jitter_scores_zero :
    MetricsAnalyzer.score defaultCfg (some mNoJitter) = 0
      ∧ mNoJitter.success = true ∧ mNoJitter.latency_ms = some 100
      ∧ mNoJitter.throughput_kbps = some 5000 ∧ mNoJitter.jitter_ms = none := by
  decide

/-- C3 amended: a measurement lacking `jitter_ms` scores `0`, exactly like a
failed measurement or one lacking latency or throughput — jitter does not
default to a neutral value (that treatment is given to `packet_loss`
instead). -/
theorem C3_amended_missing_jitter_scores_zero (cfg : Cfg) (m : Metrics)
    (h : m.jitter_ms = none) : MetricsAnalyzer.score cfg (some m) = 0 := by
  rcases m with ⟨s, lat, jit, pl, thr, rel⟩
  cases h
  cases s <;> cases lat <;> cases thr <;> rfl

/-- Witness for the C3 amended theorem at a concrete measurement. -/
theorem C3_amended_witness :
    MetricsAnalyzer.score defaultCfg
      (some { success := true, latency_ms := some 1, jitter_ms := none,
              throughput_kbps := some 9000, reliability := some 1 }) = 0 :=
  C3_amended_missing_jitter_scores_zero defaultCfg _ rfl

/-- C4: on every exit path of a single-node evaluation — success, config
error, startup failure, probe error or timeout, unexpected exception, and
cancellation — the leased port is released back to the pool exactly once.
Both testers acquire the port first and release it in a `finally` block that
Python runs once on every path, including the propagation of
`CancelledError`. -/
theorem C4_port_released_exactly_once :
    (∀ env : XEnv, (xray_test_node env).2.portReleases = 1)
    ∧ ∀ (cfg : Cfg) (env : HEnv), (hiddify_test_node cfg env).2 = 1 := by
  constructor
  · intro env
    rcases env with ⟨po, wr, be, so, pr, eg, probe⟩
    cases po <;> cases wr <;> cases be <;> cases so <;> cases pr <;> cases eg <;>
      cases probe <;> rfl
  · intro cfg env
    rcases env with ⟨s, l, sp⟩
    cases s <;> cases l <;> cases sp <;>
      simp only [hiddify_test_node] <;> split_ifs <;> rfl

/-- C5: two config strings whose stripped base URIs parse to the same
truthy hostname and port and agree on the significant path (the path only
matters for the `ws`/`grpc` schemes when nonempty and different from `/`)
produce the same `node_id`, for any digest function — in particular the
remark after `#` never influences the id, since it is stripped before
parsing. -/
theorem C5_node_id_depends_only_on_connection_identity
    (digest : String → String) (c1 c2 : String) (h : String) (p : Nat)
    (h1 : (urlparse (baseConfig c1)).hostname = some h)
    (h2 : (urlparse (baseConfig c2)).hostname = some h)
    (p1 : (urlparse (baseConfig c1)).port = .ok (some p))
    (p2 : (urlparse (baseConfig c2)).port = .ok (some p))
    (hp : p ≠ 0)
    (hpath : (if pathSignificant (urlparse (baseConfig c1)) then
        some (urlparse (baseConfig c1)).path else none) =
      (if pathSignificant (urlparse (baseConfig c2)) then
        some (urlparse (baseConfig c2)).path else none)) :
    get_node_id digest c1 = get_node_id digest c2 := by
  unfold get_node_id identifier identifierOfParts
  rw [h1, h2, p1, p2]
  by_cases hs1 : pathSignificant (urlparse (baseConfig c1)) <;>
    by_cases hs2 : pathSignificant (urlparse (baseConfig c2)) <;>
      simp only [hs1, hs2, if_true, if_false, if_neg hp] at hpath ⊢
  · simp only [Option.some.injEq] at hpath
    rw [hpath]
  · exact absurd hpath (by simp)
  · exact absurd hpath (by simp)
  · rfl

/-- Witness for C5 at two concrete descriptors differing in userinfo, query,
hostname capitalization and remark. -/
theorem C5_witness :
    get_node_id (fun s => s) "vless://a@Example.com:443?x=1#Remark-One" =
      get_node_id (fun s => s) "vless://example.com:443#Two" :=
  C5_node_id_depends_only_on_connection_identity (fun s => s) _ _
    "example.com" 443 (by decide) (by decide) (by decide) (by decide)
    (by decide) (by decide)
